import Mathlib

/-!
Shallow embedding of `token_calc.py` (repository token_costing_estimator).

Python numbers (int/float/bool) are modelled by `PyVal`; their numeric value
is idealised as a rational (`ℚ`), so all arithmetic is exact.  Exceptions are
modelled by `Except PyError`: Python `raise` becomes `Except.error`, and the
`try/except` dispatch in `main` becomes a match on the error constructor.
-/

/-- A Python value as far as `token_calc.py` can observe it: booleans, ints,
floats (idealised as rationals), strings, and `None`.  `bool` is listed
separately because in Python `bool` is a subclass of `int`, which matters for
`isinstance(arg, (int, float))`. -/
inductive PyVal where
  | bool (b : Bool)
  | int (n : ℤ)
  | float (q : ℚ)
  | str (s : String)
  | none
deriving DecidableEq

/-- The exceptions that arise in `token_calc.py`: `ValueError` (raised by
`validate_inputs` and by `float()` on malformed text) and `TypeError`
(raised by `float()` on a non-string, non-numeric argument). -/
inductive PyError where
  | valueError (msg : String)
  | typeError (msg : String)
deriving DecidableEq

/-- The numeric value of a Python number, as a rational.  `True` counts as 1
and `False` as 0, exactly as in Python arithmetic.  Non-numeric values get a
junk value 0; they are only ever read after `validate_inputs` has accepted
the argument as numeric. -/
def PyVal.toQ : PyVal → ℚ
  | .bool b => if b then 1 else 0
  | .int n => (n : ℚ)
  | .float q => q
  | .str _ => 0
  | .none => 0

/-- `isinstance(arg, (int, float)) and arg > 0` from line 27 of the source.
Booleans satisfy the `isinstance` test because `bool` subclasses `int`, and
`True > 0` holds (`True == 1`).  For non-numeric values the short-circuiting
`and` stops at the failed `isinstance`, so the comparison is never made. -/
def PyVal.isPositiveNumber : PyVal → Bool
  | .bool b => b
  | .int n => decide (0 < n)
  | .float q => decide (0 < q)
  | .str _ => false
  | .none => false

/-! ### Python `float()` on decimal text

`main` converts every collected input with the builtin `float(...)`.  The
builtin is not part of the repository source; it is embedded here for decimal
literals: optional surrounding whitespace, an optional sign, digits with an
optional fractional part, and an optional decimal exponent.  (The special
texts `inf`/`nan`, which have no rational value, and underscore separators
are outside the model.)  Malformed text yields `Option.none`, which `pyfloat`
turns into the `ValueError` that Python raises. -/

/-- Is `c` one of the ASCII digits `0`–`9`? -/
def isDigitChar (c : Char) : Bool :=
  decide ('0' ≤ c) && decide (c ≤ '9')

/-- ASCII whitespace, which `float()` ignores around the number. -/
def isSpaceChar (c : Char) : Bool :=
  c = ' ' || c = '\t' || c = '\n' || c = '\r' || c = '\x0b' || c = '\x0c'

/-- Drop leading and trailing whitespace. -/
def trimChars (l : List Char) : List Char :=
  ((l.dropWhile isSpaceChar).reverse.dropWhile isSpaceChar).reverse

/-- The natural number denoted by a list of ASCII digits (most significant
first); junk on non-digits, callers check `isDigitChar` beforehand. -/
def digitsToNat (l : List Char) : ℕ :=
  l.foldl (fun a c => 10 * a + (c.toNat - 48)) 0

/-- Consume an optional leading sign; returns (negative?, rest). -/
def parseSign : List Char → Bool × List Char
  | '-' :: r => (true, r)
  | '+' :: r => (false, r)
  | l => (false, l)

/-- Parse an unsigned decimal mantissa `digits[.digits]` (at least one digit
in total); returns its value and the unconsumed rest. -/
def parseMantissa (cs : List Char) : Option (ℚ × List Char) :=
  let ip := cs.takeWhile isDigitChar
  let r1 := cs.dropWhile isDigitChar
  match r1 with
  | '.' :: r2 =>
    let fp := r2.takeWhile isDigitChar
    let r3 := r2.dropWhile isDigitChar
    if ip.isEmpty && fp.isEmpty then Option.none
    else some ((digitsToNat ip : ℚ) + (digitsToNat fp : ℚ) / (10 : ℚ) ^ fp.length, r3)
  | _ => if ip.isEmpty then Option.none else some ((digitsToNat ip : ℚ), r1)

/-- Parse an exponent body `[sign]digits`; returns its integer value and the
unconsumed rest. -/
def parseExponent (cs : List Char) : Option (ℤ × List Char) :=
  let (neg, r) := parseSign cs
  let ds := r.takeWhile isDigitChar
  let r2 := r.dropWhile isDigitChar
  if ds.isEmpty then Option.none
  else some ((if neg then -(digitsToNat ds : ℤ) else (digitsToNat ds : ℤ)), r2)

/-- The value of decimal numeric text, or `Option.none` when `float()` would
reject it. -/
def parseFloat (s : String) : Option ℚ :=
  let cs := trimChars s.toList
  let (neg, r0) := parseSign cs
  match parseMantissa r0 with
  | Option.none => Option.none
  | some (v, r1) =>
    match r1 with
    | [] => some (if neg then -v else v)
    | c :: r2 =>
      if c = 'e' ∨ c = 'E' then
        match parseExponent r2 with
        | some (ex, []) => some (if neg then -(v * (10 : ℚ) ^ ex) else v * (10 : ℚ) ^ ex)
        | _ => Option.none
      else Option.none

/-- The builtin `float(x)` as used in `main`: numeric values pass through
with their numeric value, strings are parsed as decimal text (raising
`ValueError` on malformed text, with CPython's message), and `None` raises
`TypeError`. -/
def pyfloat : PyVal → Except PyError ℚ
  | .float q => .ok q
  | .int n => .ok (n : ℚ)
  | .bool b => .ok (if b then 1 else 0)
  | .str s =>
    match parseFloat s with
    | some q => .ok q
    | Option.none =>
      .error (.valueError ("could not convert string to float: '" ++ s ++ "'"))
  | .none => .error (.typeError "float() argument must be a string or a real number, not 'NoneType'")

/-! ### The `OpenAICostCalculator` class -/

/-- The fields `__init__` sets (lines 19–22), with numeric values idealised
as rationals. -/
structure OpenAICostCalculator where
  prompts_per_shift : ℚ
  multiplier : ℚ
  avg_tokens_per_call : ℚ
  token_cost_per_thousand : ℚ
deriving DecidableEq

/-- `validate_inputs` (lines 24–28): raises
`ValueError("All parameters should be positive numbers.")` unless every one
of the four arguments is a positive number in the sense of
`isinstance(arg, (int, float)) and arg > 0`. -/
def validate_inputs (prompts_per_shift multiplier avg_tokens_per_call token_cost_per_thousand : PyVal) :
    Except PyError Unit :=
  if prompts_per_shift.isPositiveNumber && multiplier.isPositiveNumber
      && avg_tokens_per_call.isPositiveNumber && token_cost_per_thousand.isPositiveNumber then
    .ok ()
  else
    .error (.valueError "All parameters should be positive numbers.")

/-- `__init__` (lines 16–22): validate first — on failure the exception
propagates and no instance exists (no partial construction) — then set the
four fields to the given values. -/
def OpenAICostCalculator.construct (prompts_per_shift multiplier avg_tokens_per_call token_cost_per_thousand : PyVal) :
    Except PyError OpenAICostCalculator :=
  match validate_inputs prompts_per_shift multiplier avg_tokens_per_call token_cost_per_thousand with
  | .error e => .error e
  | .ok _ =>
    .ok ⟨prompts_per_shift.toQ, multiplier.toQ, avg_tokens_per_call.toQ, token_cost_per_thousand.toQ⟩

/-- Lines 30–32. -/
def OpenAICostCalculator.calculate_tokens_per_shift (self : OpenAICostCalculator) : ℚ :=
  self.prompts_per_shift * self.multiplier * self.avg_tokens_per_call

/-- Lines 34–37. -/
def OpenAICostCalculator.calculate_cost_per_shift (self : OpenAICostCalculator) : ℚ :=
  self.calculate_tokens_per_shift / 1000 * self.token_cost_per_thousand

/-- Lines 39–41: no validation of `doctors_per_shift`. -/
def OpenAICostCalculator.calculate_cost_per_hospital_per_shift
    (self : OpenAICostCalculator) (doctors_per_shift : ℚ) : ℚ :=
  self.calculate_cost_per_shift * doctors_per_shift

/-- Lines 43–45: no validation of `shifts_per_day`. -/
def OpenAICostCalculator.calculate_daily_costs
    (self : OpenAICostCalculator) (shifts_per_day doctors_per_shift : ℚ) : ℚ :=
  self.calculate_cost_per_hospital_per_shift doctors_per_shift * shifts_per_day

/-- Lines 47–49: `days_per_month = 30`. -/
def OpenAICostCalculator.calculate_monthly_costs
    (_self : OpenAICostCalculator) (daily_costs : ℚ) : ℚ :=
  daily_costs * 30

/-- Lines 51–53: `months_per_year = 12`. -/
def OpenAICostCalculator.calculate_annual_costs
    (_self : OpenAICostCalculator) (monthly_costs : ℚ) : ℚ :=
  monthly_costs * 12

/-! ### `get_input` and `main` -/

/-- `get_input` (lines 55–58): the prompt text is only displayed; the
function returns the raw input text when it is non-empty (Python truthiness
of a string), otherwise the default value unchanged. -/
def get_input (_prompt : String) (user_input : String) (default_value : PyVal) : PyVal :=
  if user_input = "" then default_value else .str user_input

/-- The five cost figures `main` computes and hands to `display_results`
(lines 126–136); producing this record models a completed run that prints
the report. -/
structure MainReport where
  cost_per_shift : ℚ
  cost_per_hospital_per_shift : ℚ
  daily_costs : ℚ
  monthly_costs : ℚ
  annual_costs : ℚ
deriving DecidableEq

/-- The body of `main`'s `try` block (lines 105–136): collect the six inputs
(each `float(get_input(...))` with the hard-coded defaults), construct the
calculator, and compute the five cost figures.  The first exception
propagates out as `Except.error`. -/
def mainOutcome (i1 i2 i3 i4 i5 i6 : String) : Except PyError MainReport :=
  match pyfloat (get_input "Enter the number of prompts sent per doctor's shift" i1 (.int 50)) with
  | .error e => .error e
  | .ok prompts_per_shift =>
  match pyfloat (get_input "Enter the chain/interaction/augmentation multiplier" i2 (.int 5)) with
  | .error e => .error e
  | .ok multiplier =>
  match pyfloat (get_input "Enter the average tokens used per API call" i3 (.int 2000)) with
  | .error e => .error e
  | .ok avg_tokens_per_call =>
  match pyfloat (get_input "Enter the OpenAI price per 1000 tokens (GPT-4=$0.06) (in $)" i4 (.float (3 / 50))) with
  | .error e => .error e
  | .ok token_cost_per_thousand =>
  match pyfloat (get_input "Enter the number of doctors on shift per hospital" i5 (.int 10)) with
  | .error e => .error e
  | .ok doctors_per_shift =>
  match pyfloat (get_input "Enter the number of shifts per day" i6 (.int 3)) with
  | .error e => .error e
  | .ok shifts_per_day =>
  match OpenAICostCalculator.construct (.float prompts_per_shift) (.float multiplier)
      (.float avg_tokens_per_call) (.float token_cost_per_thousand) with
  | .error e => .error e
  | .ok calculator =>
    let cost_per_shift := calculator.calculate_cost_per_shift
    let cost_per_hospital_per_shift := calculator.calculate_cost_per_hospital_per_shift doctors_per_shift
    let daily_costs := calculator.calculate_daily_costs shifts_per_day doctors_per_shift
    let monthly_costs := calculator.calculate_monthly_costs daily_costs
    let annual_costs := calculator.calculate_annual_costs monthly_costs
    .ok ⟨cost_per_shift, cost_per_hospital_per_shift, daily_costs, monthly_costs, annual_costs⟩

/-- The `except` clauses of `main` (lines 138–141): a `ValueError` prints
`"Invalid input: {e}"`, any other exception prints
`"An unexpected error occurred: {e}"`. -/
def handleError : PyError → String
  | .valueError msg => "Invalid input: " ++ msg
  | .typeError msg => "An unexpected error occurred: " ++ msg

/-- `main` (lines 104–141) as a function of the six texts the operator
types: either the error message printed by an `except` clause (the run
aborts, no report), or the report's five cost figures.  (Named `mainRun`
because Lean reserves `main` for an `IO` entry point.) -/
def mainRun (i1 i2 i3 i4 i5 i6 : String) : String ⊕ MainReport :=
  match mainOutcome i1 i2 i3 i4 i5 i6 with
  | .error e => Sum.inl (handleError e)
  | .ok r => Sum.inr r

/-! ### Helper lemmas -/

deriving instance DecidableEq for Except

/-- `__init__` as a single conditional: validation decides between the fully
initialised record and the `ValueError`. -/
lemma construct_ite (p m t c : PyVal) :
    OpenAICostCalculator.construct p m t c =
      if p.isPositiveNumber && m.isPositiveNumber && t.isPositiveNumber && c.isPositiveNumber then
        .ok ⟨p.toQ, m.toQ, t.toQ, c.toQ⟩
      else .error (.valueError "All parameters should be positive numbers.") := by
  by_cases hb : (p.isPositiveNumber && m.isPositiveNumber
      && t.isPositiveNumber && c.isPositiveNumber) = true
  · simp [OpenAICostCalculator.construct, validate_inputs, hb]
  · simp only [Bool.not_eq_true] at hb
    simp [OpenAICostCalculator.construct, validate_inputs, hb]

/-- Construction from four positive rationals (wrapped as Python floats)
succeeds and stores exactly those values. -/
lemma construct_pos (p m t c : ℚ) (hp : 0 < p) (hm : 0 < m) (ht : 0 < t) (hc : 0 < c) :
    OpenAICostCalculator.construct (.float p) (.float m) (.float t) (.float c) = .ok ⟨p, m, t, c⟩ := by
  simp [OpenAICostCalculator.construct, validate_inputs, PyVal.isPositiveNumber,
    hp, hm, ht, hc, PyVal.toQ]

/-- Non-empty text that `float()` rejects: the operator typed something, and
it does not parse as a number. -/
def badInput (s : String) : Prop :=
  s ≠ "" ∧ parseFloat s = Option.none

/-- `float(get_input(...))` on a non-empty unparseable input raises exactly
the `ValueError` of the failed conversion. -/
lemma getFloat_badInput (prompt s : String) (d : PyVal) (h : badInput s) :
    pyfloat (get_input prompt s d)
      = .error (.valueError ("could not convert string to float: '" ++ s ++ "'")) := by
  obtain ⟨hne, hparse⟩ := h
  simp [get_input, hne, pyfloat, hparse]

/-- `float()` of a string can only fail with a `ValueError`. -/
lemma pyfloat_str_error (s : String) (e : PyError) (h : pyfloat (.str s) = .error e) :
    ∃ m, e = .valueError m := by
  cases hp : parseFloat s <;> simp [pyfloat, hp] at h
  exact ⟨_, h.symm⟩

/-- If the default itself converts without an exception, then any exception
out of `float(get_input(...))` is a `ValueError` from string parsing. -/
lemma getFloat_error (prompt s : String) (d : PyVal) (hd : ∀ e, pyfloat d ≠ .error e)
    (e : PyError) (h : pyfloat (get_input prompt s d) = .error e) :
    ∃ m, e = .valueError m := by
  by_cases hs : s = ""
  · rw [get_input, if_pos hs] at h
    exact absurd h (hd e)
  · rw [get_input, if_neg hs] at h
    exact pyfloat_str_error s e h

/-! ### Claims -/

/-- C1: `Construct` fails with `InvalidParameterError` (the `ValueError`
raised by `validate_inputs`) if and only if at least one of the four
arguments is not a positive number — non-numeric type or value ≤ 0, in the
source's sense `isinstance(arg, (int, float)) and arg > 0` — independently
of which of the four positions carries the bad value; on failure the error
is returned in place of any record (no partial construction), and for four
positive numbers construction succeeds with the four fields set to the given
values. -/
theorem construct_error_iff_not_positive (p m t c : PyVal) :
    ((∃ e, OpenAICostCalculator.construct p m t c = .error e) ↔
      ¬(p.isPositiveNumber = true ∧ m.isPositiveNumber = true ∧
        t.isPositiveNumber = true ∧ c.isPositiveNumber = true))
    ∧ (¬(p.isPositiveNumber = true ∧ m.isPositiveNumber = true ∧
        t.isPositiveNumber = true ∧ c.isPositiveNumber = true) →
      OpenAICostCalculator.construct p m t c
        = .error (.valueError "All parameters should be positive numbers."))
    ∧ ((p.isPositiveNumber = true ∧ m.isPositiveNumber = true ∧
        t.isPositiveNumber = true ∧ c.isPositiveNumber = true) →
      OpenAICostCalculator.construct p m t c = .ok ⟨p.toQ, m.toQ, t.toQ, c.toQ⟩) := by
  by_cases hcond : p.isPositiveNumber = true ∧ m.isPositiveNumber = true ∧
      t.isPositiveNumber = true ∧ c.isPositiveNumber = true
  · obtain ⟨h1, h2, h3, h4⟩ := hcond
    rw [construct_ite]
    simp [h1, h2, h3, h4]
  · have hb : (p.isPositiveNumber && m.isPositiveNumber
        && t.isPositiveNumber && c.isPositiveNumber) = false := by
      cases hx : (p.isPositiveNumber && m.isPositiveNumber
          && t.isPositiveNumber && c.isPositiveNumber)
      · rfl
      · exact absurd (by simpa [Bool.and_eq_true, and_assoc] using hx) hcond
    rw [construct_ite, hb, if_neg (by simp)]
    exact ⟨iff_of_true ⟨_, rfl⟩ hcond, fun _ => rfl, fun hyes => absurd hyes hcond⟩

/-- Witness for C1: position-one zero fails; all-positive input succeeds
with the fields set to the given values. -/
theorem construct_error_iff_not_positive_witness :
    OpenAICostCalculator.construct (.int 50) (.int 5) (.int 2000) (.float (3/50))
      = .ok ⟨(PyVal.int 50).toQ, (PyVal.int 5).toQ, (PyVal.int 2000).toQ, (PyVal.float (3/50)).toQ⟩
    ∧ OpenAICostCalculator.construct (.int 0) (.int 5) (.int 2000) (.float (3/50))
      = .error (.valueError "All parameters should be positive numbers.") :=
  ⟨(construct_error_iff_not_positive (.int 50) (.int 5) (.int 2000) (.float (3/50))).2.2
      (by exact ⟨by decide, by decide, by decide, by norm_num [PyVal.isPositiveNumber]⟩),
    (construct_error_iff_not_positive (.int 0) (.int 5) (.int 2000) (.float (3/50))).2.1
      (by intro h; exact absurd h.1 (by decide))⟩

/-- C2: for positive parameters the model constructs successfully and
`calculate_tokens_per_shift` returns exactly
`prompts_per_shift * multiplier * avg_tokens_per_call`. -/
theorem tokens_per_shift_eq_product (p m t c : ℚ)
    (hp : 0 < p) (hm : 0 < m) (ht : 0 < t) (hc : 0 < c) :
    OpenAICostCalculator.construct (.float p) (.float m) (.float t) (.float c) = .ok ⟨p, m, t, c⟩
    ∧ OpenAICostCalculator.calculate_tokens_per_shift ⟨p, m, t, c⟩ = p * m * t :=
  ⟨construct_pos p m t c hp hm ht hc, rfl⟩

/-- Witness for C2 at the default scenario parameters. -/
theorem tokens_per_shift_eq_product_witness :
    OpenAICostCalculator.construct (.float 50) (.float 5) (.float 2000) (.float (3/50))
      = .ok ⟨50, 5, 2000, 3/50⟩
    ∧ OpenAICostCalculator.calculate_tokens_per_shift ⟨50, 5, 2000, 3/50⟩ = 50 * 5 * 2000 :=
  tokens_per_shift_eq_product 50 5 2000 (3/50)
    (by norm_num) (by norm_num) (by norm_num) (by norm_num)

/-- C3: `calculate_cost_per_shift` is exactly
`calculate_tokens_per_shift / 1000 * token_cost_per_thousand` for every
model, and the divisor is the constant 1000, which is not zero. -/
theorem cost_per_shift_formula (cal : OpenAICostCalculator) :
    cal.calculate_cost_per_shift
      = cal.calculate_tokens_per_shift / 1000 * cal.token_cost_per_thousand
    ∧ (1000 : ℚ) ≠ 0 :=
  ⟨rfl, by norm_num⟩

/-- C4: `calculate_cost_per_hospital_per_shift` and `calculate_daily_costs`
are the stated products for every model and for every rational
`doctors_per_shift` and `shifts_per_day` — the two reporting multipliers are
total function arguments, so zero and negative values are accepted without
any validation or error. -/
theorem hospital_and_daily_costs_linear (cal : OpenAICostCalculator)
    (doctors_per_shift shifts_per_day : ℚ) :
    cal.calculate_cost_per_hospital_per_shift doctors_per_shift
      = cal.calculate_cost_per_shift * doctors_per_shift
    ∧ cal.calculate_daily_costs shifts_per_day doctors_per_shift
      = cal.calculate_cost_per_hospital_per_shift doctors_per_shift * shifts_per_day :=
  ⟨rfl, rfl⟩

/-- C5: `calculate_monthly_costs` multiplies by the fixed constant 30,
`calculate_annual_costs` by the fixed constant 12, so a daily cost `x`
yields an annual cost of `x * 30 * 12 = x * 360`, independent of the model's
parameters. -/
theorem monthly_annual_scaling (cal : OpenAICostCalculator) (x : ℚ) :
    cal.calculate_monthly_costs x = x * 30
    ∧ cal.calculate_annual_costs (cal.calculate_monthly_costs x) = x * 30 * 12
    ∧ cal.calculate_annual_costs (cal.calculate_monthly_costs x) = x * 360 :=
  ⟨rfl, rfl, by show x * 30 * 12 = x * 360; ring⟩

/-- C6: the end-to-end default scenario — both stated on the calculator
derivations and on a full run of `main` with every prompt answered by the
default (empty input). -/
theorem end_to_end_default_scenario :
    OpenAICostCalculator.construct (.float 50) (.float 5) (.float 2000) (.float (3/50))
      = .ok ⟨50, 5, 2000, 3/50⟩
    ∧ OpenAICostCalculator.calculate_tokens_per_shift ⟨50, 5, 2000, 3/50⟩ = 500000
    ∧ OpenAICostCalculator.calculate_cost_per_shift ⟨50, 5, 2000, 3/50⟩ = 30
    ∧ OpenAICostCalculator.calculate_cost_per_hospital_per_shift ⟨50, 5, 2000, 3/50⟩ 10 = 300
    ∧ OpenAICostCalculator.calculate_daily_costs ⟨50, 5, 2000, 3/50⟩ 3 10 = 900
    ∧ OpenAICostCalculator.calculate_monthly_costs ⟨50, 5, 2000, 3/50⟩ 900 = 27000
    ∧ OpenAICostCalculator.calculate_annual_costs ⟨50, 5, 2000, 3/50⟩ 27000 = 324000
    ∧ mainRun "" "" "" "" "" "" = Sum.inr ⟨30, 300, 900, 27000, 324000⟩ := by
  have h : OpenAICostCalculator.construct (.float 50) (.float 5) (.float 2000) (.float (3/50))
      = .ok ⟨50, 5, 2000, 3/50⟩ :=
    construct_pos 50 5 2000 (3/50) (by norm_num) (by norm_num) (by norm_num) (by norm_num)
  have hrun : mainRun "" "" "" "" "" "" = Sum.inr ⟨30, 300, 900, 27000, 324000⟩ := by
    simp only [mainRun, mainOutcome, get_input, if_pos rfl, pyfloat]
    norm_num [h, OpenAICostCalculator.calculate_cost_per_shift,
      OpenAICostCalculator.calculate_tokens_per_shift,
      OpenAICostCalculator.calculate_cost_per_hospital_per_shift,
      OpenAICostCalculator.calculate_daily_costs,
      OpenAICostCalculator.calculate_monthly_costs,
      OpenAICostCalculator.calculate_annual_costs]
  refine ⟨h, ?_, ?_, ?_, ?_, ?_, ?_, hrun⟩ <;>
    norm_num [OpenAICostCalculator.calculate_cost_per_shift,
      OpenAICostCalculator.calculate_tokens_per_shift,
      OpenAICostCalculator.calculate_cost_per_hospital_per_shift,
      OpenAICostCalculator.calculate_daily_costs,
      OpenAICostCalculator.calculate_monthly_costs,
      OpenAICostCalculator.calculate_annual_costs]

/-- C7: `calculate_cost_per_shift` is monotone non-decreasing in each of the
four parameters individually, the other three held fixed, over positive
parameters. -/
theorem cost_per_shift_monotone (p p' m m' t t' c c' : ℚ)
    (hp : 0 < p) (hm : 0 < m) (ht : 0 < t) (hc : 0 < c) :
    (p ≤ p' → OpenAICostCalculator.calculate_cost_per_shift ⟨p, m, t, c⟩
      ≤ OpenAICostCalculator.calculate_cost_per_shift ⟨p', m, t, c⟩)
    ∧ (m ≤ m' → OpenAICostCalculator.calculate_cost_per_shift ⟨p, m, t, c⟩
      ≤ OpenAICostCalculator.calculate_cost_per_shift ⟨p, m', t, c⟩)
    ∧ (t ≤ t' → OpenAICostCalculator.calculate_cost_per_shift ⟨p, m, t, c⟩
      ≤ OpenAICostCalculator.calculate_cost_per_shift ⟨p, m, t', c⟩)
    ∧ (c ≤ c' → OpenAICostCalculator.calculate_cost_per_shift ⟨p, m, t, c⟩
      ≤ OpenAICostCalculator.calculate_cost_per_shift ⟨p, m, t, c'⟩) := by
  refine ⟨fun h => ?_, fun h => ?_, fun h => ?_, fun h => ?_⟩ <;>
    · simp only [OpenAICostCalculator.calculate_cost_per_shift,
        OpenAICostCalculator.calculate_tokens_per_shift]
      gcongr

/-- Witness for C7: each parameter bumped individually from the default
scenario values does not decrease the cost. -/
theorem cost_per_shift_monotone_witness :
    (OpenAICostCalculator.calculate_cost_per_shift ⟨50, 5, 2000, 3/50⟩
      ≤ OpenAICostCalculator.calculate_cost_per_shift ⟨51, 5, 2000, 3/50⟩)
    ∧ (OpenAICostCalculator.calculate_cost_per_shift ⟨50, 5, 2000, 3/50⟩
      ≤ OpenAICostCalculator.calculate_cost_per_shift ⟨50, 6, 2000, 3/50⟩)
    ∧ (OpenAICostCalculator.calculate_cost_per_shift ⟨50, 5, 2000, 3/50⟩
      ≤ OpenAICostCalculator.calculate_cost_per_shift ⟨50, 5, 2001, 3/50⟩)
    ∧ (OpenAICostCalculator.calculate_cost_per_shift ⟨50, 5, 2000, 3/50⟩
      ≤ OpenAICostCalculator.calculate_cost_per_shift ⟨50, 5, 2000, 1⟩) :=
  have h := cost_per_shift_monotone 50 51 5 6 2000 2001 (3/50) 1
    (by norm_num) (by norm_num) (by norm_num) (by norm_num)
  ⟨h.1 (by norm_num), h.2.1 (by norm_num), h.2.2.1 (by norm_num), h.2.2.2 (by norm_num)⟩

/-- C8: `get_input` returns the default value unchanged when the typed input
is empty, and otherwise passes the typed text through, so that the `float()`
conversion applied at every call site in `main` yields the supplied value
parsed as a number. -/
theorem get_input_default_or_parse (prompt input : String) (default_value : PyVal) (q : ℚ) :
    (input = "" → get_input prompt input default_value = default_value)
    ∧ (input ≠ "" → parseFloat input = some q →
      pyfloat (get_input prompt input default_value) = .ok q) := by
  constructor
  · intro h
    simp [get_input, h]
  · intro h hq
    simp [get_input, h, pyfloat, hq]

/-- Witness for C8: empty input keeps the default `3`; input `"7"` is parsed
to the number 7. -/
theorem get_input_default_or_parse_witness :
    get_input "Enter the number of shifts per day" "" (.int 3) = .int 3
    ∧ pyfloat (get_input "Enter the number of shifts per day" "7" (.int 3)) = .ok 7 :=
  ⟨(get_input_default_or_parse "Enter the number of shifts per day" "" (.int 3) 0).1 rfl,
    (get_input_default_or_parse "Enter the number of shifts per day" "7" (.int 3) 7).2
      (by decide) (by decide)⟩

/-- Counterexample to C9: with the non-numeric text `"abc"` supplied at the
first prompt, the run aborts, but the `ValueError` raised by `float()` is
caught by the `except ValueError` clause and printed in the
`"Invalid input: {message}"` form — not, as the claim states, in the
`"An unexpected error occurred: {message}"` form. -/
theorem parse_error_message_counterexample :
    mainRun "abc" "" "" "" "" ""
      = Sum.inl "Invalid input: could not convert string to float: 'abc'"
    ∧ "Invalid input: could not convert string to float: 'abc'"
      ≠ "An unexpected error occurred: could not convert string to float: 'abc'" := by
  decide

/-- C9 as amended: when the operator supplies non-empty input that cannot be
parsed as a number, the run aborts without producing a report, and the
failure is surfaced as a `ValueError` printed in the
`"Invalid input: {message}"` form — the same form used for the validation
error on the four core parameters. -/
theorem parse_error_aborts_with_invalid_input (i1 i2 i3 i4 i5 i6 : String)
    (h : badInput i1 ∨ badInput i2 ∨ badInput i3 ∨ badInput i4 ∨ badInput i5 ∨ badInput i6) :
    (∃ m, mainRun i1 i2 i3 i4 i5 i6 = Sum.inl ("Invalid input: " ++ m))
    ∧ ∀ r, mainRun i1 i2 i3 i4 i5 i6 ≠ Sum.inr r := by
  have herr : ∃ m, mainOutcome i1 i2 i3 i4 i5 i6 = .error (.valueError m) := by
    cases h1 : pyfloat (get_input "Enter the number of prompts sent per doctor's shift" i1 (.int 50)) with
    | error e =>
      obtain ⟨m, rfl⟩ := getFloat_error _ i1 _ (by simp [pyfloat]) e h1
      exact ⟨m, by simp only [mainOutcome, h1]⟩
    | ok v1 =>
    cases h2 : pyfloat (get_input "Enter the chain/interaction/augmentation multiplier" i2 (.int 5)) with
    | error e =>
      obtain ⟨m, rfl⟩ := getFloat_error _ i2 _ (by simp [pyfloat]) e h2
      exact ⟨m, by simp only [mainOutcome, h1, h2]⟩
    | ok v2 =>
    cases h3 : pyfloat (get_input "Enter the average tokens used per API call" i3 (.int 2000)) with
    | error e =>
      obtain ⟨m, rfl⟩ := getFloat_error _ i3 _ (by simp [pyfloat]) e h3
      exact ⟨m, by simp only [mainOutcome, h1, h2, h3]⟩
    | ok v3 =>
    cases h4 : pyfloat (get_input "Enter the OpenAI price per 1000 tokens (GPT-4=$0.06) (in $)" i4 (.float (3 / 50))) with
    | error e =>
      obtain ⟨m, rfl⟩ := getFloat_error _ i4 _ (by simp [pyfloat]) e h4
      exact ⟨m, by simp only [mainOutcome, h1, h2, h3, h4]⟩
    | ok v4 =>
    cases h5 : pyfloat (get_input "Enter the number of doctors on shift per hospital" i5 (.int 10)) with
    | error e =>
      obtain ⟨m, rfl⟩ := getFloat_error _ i5 _ (by simp [pyfloat]) e h5
      exact ⟨m, by simp only [mainOutcome, h1, h2, h3, h4, h5]⟩
    | ok v5 =>
    cases h6 : pyfloat (get_input "Enter the number of shifts per day" i6 (.int 3)) with
    | error e =>
      obtain ⟨m, rfl⟩ := getFloat_error _ i6 _ (by simp [pyfloat]) e h6
      exact ⟨m, by simp only [mainOutcome, h1, h2, h3, h4, h5, h6]⟩
    | ok v6 =>
      exfalso
      rcases h with hb | hb | hb | hb | hb | hb
      · rw [getFloat_badInput _ i1 _ hb] at h1; exact Except.noConfusion h1
      · rw [getFloat_badInput _ i2 _ hb] at h2; exact Except.noConfusion h2
      · rw [getFloat_badInput _ i3 _ hb] at h3; exact Except.noConfusion h3
      · rw [getFloat_badInput _ i4 _ hb] at h4; exact Except.noConfusion h4
      · rw [getFloat_badInput _ i5 _ hb] at h5; exact Except.noConfusion h5
      · rw [getFloat_badInput _ i6 _ hb] at h6; exact Except.noConfusion h6
  obtain ⟨m, hm⟩ := herr
  constructor
  · exact ⟨m, by simp [mainRun, hm, handleError]⟩
  · intro r hr
    rw [mainRun, hm] at hr
    exact Sum.noConfusion hr

/-- Witness for the amended C9 at the concrete bad input `"abc"`. -/
theorem parse_error_aborts_with_invalid_input_witness :
    mainRun "abc" "" "" "" "" "" ≠ Sum.inr ⟨30, 300, 900, 27000, 324000⟩ :=
  (parse_error_aborts_with_invalid_input "abc" "" "" "" "" ""
    (Or.inl ⟨by decide, by decide⟩)).2 ⟨30, 300, 900, 27000, 324000⟩

/-- C10: booleans pass `validate_inputs`, because Python's `bool` is a
subclass of `int` and `True > 0` holds, so
`OpenAICostCalculator(True, True, True, True)` succeeds with every field
holding the numeric value 1, and `calculate_tokens_per_shift` then returns
`True * True * True = 1`. -/
theorem bool_arguments_accepted :
    OpenAICostCalculator.construct (.bool true) (.bool true) (.bool true) (.bool true)
      = .ok ⟨1, 1, 1, 1⟩
    ∧ OpenAICostCalculator.calculate_tokens_per_shift ⟨1, 1, 1, 1⟩ = 1 :=
  ⟨by decide, by norm_num [OpenAICostCalculator.calculate_tokens_per_shift]⟩
